import Mathlib

/-!
Shallow embedding of the task-tracking service in main.py: the Task data
model, the five CRUD handlers, the framework validation of the creation
shape, and the keyword classifier.  The storage engine is modelled as a
list of rows plus a fresh-id counter; a scoped session per request is
modelled by each handler taking the store and returning the result
together with the post-call store (an error leaves the store unchanged,
matching a session closed without commit).
-/

deriving instance DecidableEq for Except

namespace TaskAPI

/-- The stored Task entity, main.py lines 26-33.  Fields model the
attribute values held on the runtime row object: sqlmodel_update assigns
whatever value the patch carries, so every attribute is optional here even
where the declared column type is non-optional; the NOT NULL columns the
non-Optional declarations generate are enforced by the storage engine at
commit, modelled by Task.satisfiesNotNull and update_endpoint. -/
structure Task where
  id : Option Nat
  title : Option String
  description : Option String
  is_completed : Option Bool
  deriving DecidableEq

/-- The creation shape (main.py lines 26-29, 36-37) after framework
validation: title present, defaults applied. -/
structure TaskCreate where
  title : String
  description : Option String
  is_completed : Bool
  deriving DecidableEq

/-- The update shape (main.py lines 40-43) together with the per-field
set-tracking that model_dump exclude_unset uses: the outer none means the
field was absent from the request body (unset); some v means the field was
explicitly present with value v, where v itself may be none (explicit
null). -/
structure TaskUpdate where
  title : Option (Option String)
  description : Option (Option String)
  is_completed : Option (Option Bool)
  deriving DecidableEq

/-- An HTTPException raised by a handler (status_code, detail). -/
structure HTTPException where
  status_code : Nat
  detail : String
  deriving DecidableEq

/-- The delete handler's success body, main.py line 108. -/
structure OkResponse where
  ok : Bool
  deriving DecidableEq

/-- The task table plus the storage engine's fresh-id counter: every
stored row received its id at insertion, below nextId. -/
structure Store where
  rows : List Task
  nextId : Nat
  deriving DecidableEq

/-- session.get(Task, task_id): point lookup by primary key. -/
def findTask (s : Store) (task_id : Nat) : Option Task :=
  s.rows.find? (fun r => r.id == some task_id)

/-- create_task, main.py lines 58-64: build the row, persist it with the
engine-assigned fresh id, and return the refreshed row. -/
def create_task (task : TaskCreate) (s : Store) : Task × Store :=
  let db_task : Task :=
    { id := some s.nextId, title := some task.title,
      description := task.description, is_completed := some task.is_completed }
  (db_task, { rows := s.rows ++ [db_task], nextId := s.nextId + 1 })

/-- read_tasks, main.py lines 67-74: select with offset and limit.  The
endpoint validates only an upper bound le=100 on limit and nothing on
offset, so both are integers; the engine treats a negative OFFSET as zero
(Int.toNat clamps) and a negative LIMIT as unbounded. -/
def read_tasks (offset limit : Int) (s : Store) : List Task :=
  if limit < 0 then s.rows.drop offset.toNat
  else (s.rows.drop offset.toNat).take limit.toNat

/-- read_task, main.py lines 77-82. -/
def read_task (task_id : Nat) (s : Store) : Except HTTPException Task :=
  match findTask s task_id with
  | none => .error { status_code := 404, detail := "Task not found" }
  | some t => .ok t

/-- db_task.sqlmodel_update(task_data) where task_data is the patch's
model_dump excluding unset fields, main.py lines 92-93: every field the
request body carried (explicitly null included) overwrites the stored
attribute; unset fields are left untouched. -/
def sqlmodel_update (t : Task) (u : TaskUpdate) : Task :=
  { t with
    title := u.title.getD t.title
    description := u.description.getD t.description
    is_completed := u.is_completed.getD t.is_completed }

/-- update_task, main.py lines 85-98: the handler's own semantics, up to
but not including the engine's constraint enforcement at commit (for the
full request path with that enforcement see update_endpoint). -/
def update_task (task_id : Nat) (task_update : TaskUpdate) (s : Store) :
    Except HTTPException Task × Store :=
  match findTask s task_id with
  | none => (.error { status_code := 404, detail := "Task not found" }, s)
  | some db_task =>
    let updated := sqlmodel_update db_task task_update
    (.ok updated,
     { s with rows := s.rows.map (fun r => if r.id == some task_id then updated else r) })

/-- The NOT NULL column constraints the table schema generates from the
model declaration (main.py lines 26-33): title and is_completed are
declared non-Optional, so their columns are NOT NULL; description is
Optional, hence nullable.  Checked by the storage engine at commit. -/
def Task.satisfiesNotNull (t : Task) : Bool :=
  t.title.isSome && t.is_completed.isSome

/-- PATCH /tasks/<id> as a whole: update_task followed by the engine's
constraint check at session.commit().  A write of null into a NOT NULL
column raises IntegrityError, which surfaces as an unhandled 500 server
error, and the transaction leaves the stored rows unchanged. -/
def update_endpoint (task_id : Nat) (task_update : TaskUpdate) (s : Store) :
    Except HTTPException Task × Store :=
  match findTask s task_id with
  | none => (.error { status_code := 404, detail := "Task not found" }, s)
  | some db_task =>
    let updated := sqlmodel_update db_task task_update
    if updated.satisfiesNotNull then
      (.ok updated,
       { s with rows := s.rows.map (fun r => if r.id == some task_id then updated else r) })
    else
      (.error { status_code := 500, detail := "Internal Server Error" }, s)

/-- delete_task, main.py lines 101-108. -/
def delete_task (task_id : Nat) (s : Store) : Except HTTPException OkResponse × Store :=
  match findTask s task_id with
  | none => (.error { status_code := 404, detail := "Task not found" }, s)
  | some _ =>
    (.ok { ok := true }, { s with rows := s.rows.filter (fun r => !(r.id == some task_id)) })

/-- A ValidationError item produced by the framework's schema-validation
layer (location of the offending field, message). -/
structure ValidationError where
  loc : String
  msg : String
  deriving DecidableEq

/-- A raw creation request body before validation: each field absent or
present.  For title, an explicit null is invalid exactly like absence
(the declared type is a plain string), so both collapse to none. -/
structure RawCreate where
  title : Option String
  description : Option String
  is_completed : Option Bool
  deriving DecidableEq

/-- Framework validation of the creation shape, determined by the model
declaration at main.py lines 26-29: title is required (no length
constraint is declared, so any string, the empty one included, passes);
description defaults to none and is_completed to false. -/
def validateCreate (raw : RawCreate) : Except ValidationError TaskCreate :=
  match raw.title with
  | none => .error { loc := "title", msg := "Field required" }
  | some t =>
    .ok { title := t, description := raw.description,
          is_completed := raw.is_completed.getD false }

/-- POST /tasks/ as a whole: framework validation, then create_task; a
validation failure is returned before any row is constructed or
persisted. -/
def create_endpoint (raw : RawCreate) (s : Store) : Except ValidationError Task × Store :=
  match validateCreate raw with
  | .error e => (.error e, s)
  | .ok task =>
    let p := create_task task s
    (.ok p.1, p.2)

/-- text.lower(): case folding applied to every character, here ASCII
case folding, which is all the (ASCII) keyword matching observes. -/
def lower (s : String) : String := String.mk (s.data.map Char.toLower)

/-- The Python substring test (needle in hay): the needle's characters
occur consecutively somewhere in the hay. -/
def containsSub (hay needle : String) : Bool := decide (needle.data <:+: hay.data)

/-- simple_ai_model, main.py lines 111-117.  The label literals are the
exact character sequences of the source file, which holds double-encoded
(mojibake) bytes where emoji were evidently intended: Critical is followed
by U+00F0 U+0178 U+201D U+00B4, Growth by U+00F0 U+0178 U+0178 U+00A2,
Neutral by U+00E2 U+0161 U+00AA. -/
def simple_ai_model (text : String) : String :=
  if containsSub (lower text) "urgent" || containsSub (lower text) "fail"
      || containsSub (lower text) "error" then
    "Critical ðŸ”´"
  else if containsSub (lower text) "learn" || containsSub (lower text) "buy" then
    "Growth ðŸŸ¢"
  else
    "Neutral âšª"

/-- The analyze endpoint's response body, main.py line 123. -/
structure AnalyzeResponse where
  description : String
  predicted_sentiment : String
  deriving DecidableEq

/-- analyze_task_sentiment, main.py lines 120-123. -/
def analyze_task_sentiment (description : String) : AnalyzeResponse :=
  { description := description, predicted_sentiment := simple_ai_model description }

/-- The first keyword set of the spec's classifier description. -/
def criticalKeywords : List String := ["urgent", "fail", "error"]

/-- The second keyword set of the spec's classifier description. -/
def growthKeywords : List String := ["learn", "buy"]

/-- The classifier as the spec words it, for refinement against
simple_ai_model: case-insensitive substring matching against the two fixed
keyword sets in priority order, Neutral otherwise.  Labels as amended to
the source literals. -/
def classifySpec (text : String) : String :=
  if criticalKeywords.any (fun k => containsSub (lower text) k) then
    "Critical ðŸ”´"
  else if growthKeywords.any (fun k => containsSub (lower text) k) then
    "Growth ðŸŸ¢"
  else
    "Neutral âšª"

/-- Whether a row's id is assigned and below the fresh-id counter. -/
def Task.idBelow (t : Task) (n : Nat) : Bool :=
  match t.id with
  | some i => i < n
  | none => false

/-- Store well-formedness: every stored row has an assigned id below the
fresh-id counter, and the stored ids are pairwise distinct.  This holds of
the empty store and is preserved by every operation. -/
def Store.WF (s : Store) : Prop :=
  (∀ r ∈ s.rows, r.idBelow s.nextId = true) ∧ (s.rows.map Task.id).Nodup

instance (s : Store) : Decidable s.WF :=
  inferInstanceAs
    (Decidable ((∀ r ∈ s.rows, r.idBelow s.nextId = true) ∧ (s.rows.map Task.id).Nodup))

/-- A row whose id is below one bound is below any larger bound. -/
lemma idBelow_mono {t : Task} {m n : Nat} (hmn : m ≤ n) (h : t.idBelow m = true) :
    t.idBelow n = true := by
  cases hid : t.id with
  | none => simp [Task.idBelow, hid] at h
  | some i =>
    simp [Task.idBelow, hid] at h ⊢
    omega

/-- A row with idBelow has an assigned id under the bound. -/
lemma idBelow_elim {t : Task} {n : Nat} (h : t.idBelow n = true) :
    ∃ i, t.id = some i ∧ i < n := by
  cases hid : t.id with
  | none => simp [Task.idBelow, hid] at h
  | some i =>
    refine ⟨i, rfl, ?_⟩
    simpa [Task.idBelow, hid] using h

/-- idBelow only looks at the id field. -/
lemma idBelow_congr {t₁ t₂ : Task} (h : t₁.id = t₂.id) (n : Nat) :
    t₁.idBelow n = t₂.idBelow n := by
  unfold Task.idBelow
  rw [h]

/-- sqlmodel_update never touches the id field. -/
lemma sqlmodel_update_id (t : Task) (u : TaskUpdate) : (sqlmodel_update t u).id = t.id := rfl

/-- A successful point lookup returns a stored row carrying the looked-up id. -/
lemma findTask_some {s : Store} {tid : Nat} {r : Task} (h : findTask s tid = some r) :
    r ∈ s.rows ∧ r.id = some tid :=
  ⟨List.mem_of_find?_eq_some h, by simpa using List.find?_some h⟩

/-- C10: whenever get-by-id, update, or delete is called on an id with no
stored row, the handler raises 404 before issuing any write, and the store
is left entirely unchanged by the call. -/
theorem notfound_leaves_store_unchanged (s : Store) (tid : Nat) (u : TaskUpdate)
    (hf : findTask s tid = none) :
    read_task tid s = .error { status_code := 404, detail := "Task not found" } ∧
    update_task tid u s = (.error { status_code := 404, detail := "Task not found" }, s) ∧
    delete_task tid s = (.error { status_code := 404, detail := "Task not found" }, s) := by
  refine ⟨?_, ?_, ?_⟩ <;> simp [read_task, update_task, delete_task, hf]

/-- Witness for C10 at a concrete store: id 7 is absent from the
single-row store, and all three handlers 404 leaving it unchanged. -/
theorem notfound_leaves_store_unchanged_witness :
    read_task 7 ⟨[⟨some 1, some "a", none, some false⟩], 2⟩
        = .error { status_code := 404, detail := "Task not found" } ∧
    update_task 7 ⟨none, none, none⟩ ⟨[⟨some 1, some "a", none, some false⟩], 2⟩
        = (.error { status_code := 404, detail := "Task not found" },
           ⟨[⟨some 1, some "a", none, some false⟩], 2⟩) ∧
    delete_task 7 ⟨[⟨some 1, some "a", none, some false⟩], 2⟩
        = (.error { status_code := 404, detail := "Task not found" },
           ⟨[⟨some 1, some "a", none, some false⟩], 2⟩) :=
  notfound_leaves_store_unchanged ⟨[⟨some 1, some "a", none, some false⟩], 2⟩ 7
    ⟨none, none, none⟩ (by decide)

/-- C3: on an id with no stored row, get-by-id, update and delete each
fail with a 404 error whose detail is the fixed string Task not found; on
success, get-by-id returns the full stored task, update returns the full
updated task, and delete returns the ok-true body. -/
theorem crud_result_shapes (s : Store) (tid : Nat) (u : TaskUpdate) :
    (findTask s tid = none →
      read_task tid s = .error { status_code := 404, detail := "Task not found" } ∧
      (update_task tid u s).1 = .error { status_code := 404, detail := "Task not found" } ∧
      (delete_task tid s).1 = .error { status_code := 404, detail := "Task not found" }) ∧
    (∀ r, findTask s tid = some r →
      read_task tid s = .ok r ∧
      (update_task tid u s).1 = .ok (sqlmodel_update r u) ∧
      (delete_task tid s).1 = .ok { ok := true }) := by
  constructor
  · intro hf
    refine ⟨?_, ?_, ?_⟩ <;> simp [read_task, update_task, delete_task, hf]
  · intro r hf
    refine ⟨?_, ?_, ?_⟩ <;> simp [read_task, update_task, delete_task, hf]

/-- Witness for C3: the missing id 9 yields 404 on all three handlers of
an empty store, and on a one-row store id 1 reads back and deletes ok. -/
theorem crud_result_shapes_witness :
    (read_task 9 ⟨[], 1⟩ = .error { status_code := 404, detail := "Task not found" } ∧
      (update_task 9 ⟨none, none, none⟩ ⟨[], 1⟩).1
        = .error { status_code := 404, detail := "Task not found" } ∧
      (delete_task 9 ⟨[], 1⟩).1 = .error { status_code := 404, detail := "Task not found" }) ∧
    (read_task 1 ⟨[⟨some 1, some "a", none, some false⟩], 2⟩
        = .ok ⟨some 1, some "a", none, some false⟩ ∧
      (delete_task 1 ⟨[⟨some 1, some "a", none, some false⟩], 2⟩).1 = .ok { ok := true }) := by
  have h9 := (crud_result_shapes ⟨[], 1⟩ 9 ⟨none, none, none⟩).1 (by decide)
  have h1 := (crud_result_shapes ⟨[⟨some 1, some "a", none, some false⟩], 2⟩ 1
    ⟨none, none, none⟩).2 ⟨some 1, some "a", none, some false⟩ (by decide)
  exact ⟨h9, h1.1, h1.2.2⟩

/-- C7: when an id has a stored row, deleting it succeeds with the
ok-true body, a subsequent get-by-id on the same id returns 404, and a
second delete on the same id also returns 404. -/
theorem delete_then_notfound (s : Store) (tid : Nat) (r : Task)
    (hf : findTask s tid = some r) :
    (delete_task tid s).1 = .ok { ok := true } ∧
    read_task tid (delete_task tid s).2
      = .error { status_code := 404, detail := "Task not found" } ∧
    (delete_task tid (delete_task tid s).2).1
      = .error { status_code := 404, detail := "Task not found" } := by
  have hrows : (delete_task tid s).2.rows = s.rows.filter (fun x => !(x.id == some tid)) := by
    simp [delete_task, hf]
  have hnone : findTask (delete_task tid s).2 tid = none := by
    rw [findTask, hrows, List.find?_eq_none]
    intro x hx
    have hx2 := (List.mem_filter.mp hx).2
    simp at hx2 ⊢
    exact hx2
  refine ⟨by simp [delete_task, hf], by simp [read_task, hnone], ?_⟩
  generalize hs2 : (delete_task tid s).2 = s2 at hnone ⊢
  simp [delete_task, hnone]

/-- Witness for C7 on a one-row store: delete id 1, then get and delete
again both 404. -/
theorem delete_then_notfound_witness :
    (delete_task 1 ⟨[⟨some 1, some "a", none, some false⟩], 2⟩).1 = .ok { ok := true } ∧
    read_task 1 (delete_task 1 ⟨[⟨some 1, some "a", none, some false⟩], 2⟩).2
      = .error { status_code := 404, detail := "Task not found" } ∧
    (delete_task 1 (delete_task 1 ⟨[⟨some 1, some "a", none, some false⟩], 2⟩).2).1
      = .error { status_code := 404, detail := "Task not found" } :=
  delete_then_notfound ⟨[⟨some 1, some "a", none, some false⟩], 2⟩ 1
    ⟨some 1, some "a", none, some false⟩ (by decide)

/-- C1: updating an existing task overwrites only the fields explicitly
present in the patch body and leaves every absent field unchanged; in
particular, patching only is_completed to true leaves title and
description unchanged, and the handler returns the full updated task,
which is also what gets persisted. -/
theorem update_task_frame (s : Store) (tid : Nat) (u : TaskUpdate) (r : Task)
    (hf : findTask s tid = some r) :
    (update_task tid u s).1 = .ok (sqlmodel_update r u) ∧
    sqlmodel_update r u ∈ (update_task tid u s).2.rows ∧
    (u.title = none → (sqlmodel_update r u).title = r.title) ∧
    (u.description = none → (sqlmodel_update r u).description = r.description) ∧
    (u.is_completed = none → (sqlmodel_update r u).is_completed = r.is_completed) ∧
    (u = ⟨none, none, some (some true)⟩ →
      (sqlmodel_update r u).title = r.title ∧
      (sqlmodel_update r u).description = r.description ∧
      (sqlmodel_update r u).is_completed = some true) := by
  obtain ⟨hrmem, hrid⟩ := findTask_some hf
  refine ⟨by simp [update_task, hf], ?_, ?_, ?_, ?_, ?_⟩
  · have hrows : (update_task tid u s).2.rows
        = s.rows.map (fun x => if x.id == some tid then sqlmodel_update r u else x) := by
      simp [update_task, hf]
    rw [hrows]
    have hm := List.mem_map_of_mem
      (fun x => if x.id == some tid then sqlmodel_update r u else x) hrmem
    simpa [hrid] using hm
  · intro h; simp [sqlmodel_update, h]
  · intro h; simp [sqlmodel_update, h]
  · intro h; simp [sqlmodel_update, h]
  · intro h; subst h; simp [sqlmodel_update]

/-- Witness for C1: patching only is_completed on a concrete one-row
store keeps title and description. -/
theorem update_task_frame_witness :
    (update_task 1 ⟨none, none, some (some true)⟩
        ⟨[⟨some 1, some "a", some "d", some false⟩], 2⟩).1
      = .ok ⟨some 1, some "a", some "d", some true⟩ ∧
    (⟨some 1, some "a", some "d", some true⟩ : Task)
      ∈ (update_task 1 ⟨none, none, some (some true)⟩
          ⟨[⟨some 1, some "a", some "d", some false⟩], 2⟩).2.rows := by
  have h := update_task_frame ⟨[⟨some 1, some "a", some "d", some false⟩], 2⟩ 1
    ⟨none, none, some (some true)⟩ ⟨some 1, some "a", some "d", some false⟩ (by decide)
  exact ⟨h.1, h.2.1⟩

/-- C9 counterexample: patching title to an explicit null on an existing
row does not overwrite the stored title with null: title's column is NOT
NULL, the write violates the constraint at commit, the request fails with
a 500 server error, and the store — title still set — is unchanged. -/
theorem update_null_title_counterexample :
    update_endpoint 1 ⟨some none, none, none⟩ ⟨[⟨some 1, some "a", some "d", some false⟩], 2⟩
      = (.error { status_code := 500, detail := "Internal Server Error" },
         ⟨[⟨some 1, some "a", some "d", some false⟩], 2⟩) := by
  decide

/-- C9 as amended: on an existing id, every field explicitly present in
the patch body is included in the applied patch with the carried value,
explicit nulls included — only fields entirely absent from the body are
excluded.  When the patched row satisfies the NOT NULL columns (so in
particular for an explicit null in the nullable description column), the
request succeeds and the patched row, description overwritten with null,
is returned and persisted; an explicit null in title or is_completed
violates their NOT NULL columns, the commit raises, the request fails
with a 500 server error, and the store is unchanged. -/
theorem update_explicit_null_behavior (s : Store) (tid : Nat) (u : TaskUpdate) (r : Task)
    (hf : findTask s tid = some r) :
    (∀ v, u.title = some v → (sqlmodel_update r u).title = v) ∧
    (∀ v, u.description = some v → (sqlmodel_update r u).description = v) ∧
    (∀ v, u.is_completed = some v → (sqlmodel_update r u).is_completed = v) ∧
    (u.title = none → (sqlmodel_update r u).title = r.title) ∧
    (u.description = none → (sqlmodel_update r u).description = r.description) ∧
    (u.is_completed = none → (sqlmodel_update r u).is_completed = r.is_completed) ∧
    ((sqlmodel_update r u).satisfiesNotNull = true →
      (update_endpoint tid u s).1 = .ok (sqlmodel_update r u) ∧
      sqlmodel_update r u ∈ (update_endpoint tid u s).2.rows) ∧
    ((sqlmodel_update r u).satisfiesNotNull = false →
      update_endpoint tid u s
        = (.error { status_code := 500, detail := "Internal Server Error" }, s)) ∧
    (u.title = some none → (sqlmodel_update r u).satisfiesNotNull = false) ∧
    (u.is_completed = some none → (sqlmodel_update r u).satisfiesNotNull = false) := by
  obtain ⟨hrmem, hrid⟩ := findTask_some hf
  refine ⟨?_, ?_, ?_, ?_, ?_, ?_, ?_, ?_, ?_, ?_⟩
  · intro v h; simp [sqlmodel_update, h]
  · intro v h; simp [sqlmodel_update, h]
  · intro v h; simp [sqlmodel_update, h]
  · intro h; simp [sqlmodel_update, h]
  · intro h; simp [sqlmodel_update, h]
  · intro h; simp [sqlmodel_update, h]
  · intro hsat
    constructor
    · simp [update_endpoint, hf, hsat]
    · have hrows : (update_endpoint tid u s).2.rows
          = s.rows.map (fun x => if x.id == some tid then sqlmodel_update r u else x) := by
        simp [update_endpoint, hf, hsat]
      rw [hrows]
      have hm := List.mem_map_of_mem
        (fun x => if x.id == some tid then sqlmodel_update r u else x) hrmem
      simpa [hrid] using hm
  · intro hsat
    simp [update_endpoint, hf, hsat]
  · intro h
    simp [Task.satisfiesNotNull, sqlmodel_update, h]
  · intro h
    simp [Task.satisfiesNotNull, sqlmodel_update, h]

/-- Witness for C9 as amended: a patch carrying an explicit null for the
nullable description column on an existing row succeeds and comes back
with the description cleared. -/
theorem update_explicit_null_behavior_witness :
    (update_endpoint 1 ⟨none, some none, none⟩
        ⟨[⟨some 1, some "a", some "d", some false⟩], 2⟩).1
      = .ok ⟨some 1, some "a", none, some false⟩ := by
  have h := update_explicit_null_behavior ⟨[⟨some 1, some "a", some "d", some false⟩], 2⟩ 1
    ⟨none, some none, none⟩ ⟨some 1, some "a", some "d", some false⟩ (by decide)
  exact (h.2.2.2.2.2.2.1 (by decide)).1

/-- C4: a task created on a well-formed store carries the newly assigned
id, and get-by-id with that id immediately after returns a body identical
to the one returned by create. -/
theorem read_after_create (s : Store) (input : TaskCreate) (hWF : s.WF) :
    (create_task input s).1.id = some s.nextId ∧
    read_task s.nextId (create_task input s).2 = .ok (create_task input s).1 := by
  refine ⟨rfl, ?_⟩
  have hnone : s.rows.find? (fun x => x.id == some s.nextId) = none := by
    rw [List.find?_eq_none]
    intro x hx
    obtain ⟨i, hid, hlt⟩ := idBelow_elim (hWF.1 x hx)
    simp [hid]
    omega
  simp [read_task, findTask, create_task, List.find?_append, hnone]

/-- Witness for C4 on a concrete well-formed one-row store. -/
theorem read_after_create_witness :
    (create_task ⟨"b", some "d", false⟩ ⟨[⟨some 1, some "a", none, some false⟩], 2⟩).1.id
      = some 2 ∧
    read_task 2 (create_task ⟨"b", some "d", false⟩
        ⟨[⟨some 1, some "a", none, some false⟩], 2⟩).2
      = .ok (create_task ⟨"b", some "d", false⟩
          ⟨[⟨some 1, some "a", none, some false⟩], 2⟩).1 :=
  read_after_create ⟨[⟨some 1, some "a", none, some false⟩], 2⟩ ⟨"b", some "d", false⟩
    (by decide)

/-- C5 counterexample: the endpoint's validation bounds limit only from
above (le=100), so limit -1 is admitted; the engine treats a negative
LIMIT as unbounded and the query returns both stored rows — more than
limit — contradicting that every limit at most 100 returns up to limit
rows. -/
theorem read_tasks_negative_limit_counterexample :
    (-1 : Int) ≤ 100 ∧
    read_tasks 0 (-1)
        ⟨[⟨some 1, some "a", none, some false⟩, ⟨some 2, some "b", none, some false⟩], 3⟩
      = [⟨some 1, some "a", none, some false⟩, ⟨some 2, some "b", none, some false⟩] ∧
    ¬ (((read_tasks 0 (-1)
        ⟨[⟨some 1, some "a", none, some false⟩, ⟨some 2, some "b", none, some false⟩],
          3⟩).length : Int) ≤ -1) := by
  refine ⟨by decide, by decide, by decide⟩

/-- C5 as amended: for every non-negative offset and every non-negative
limit at most 100, the list operation returns at most limit (hence at
most 100) rows, the row at each result position is the stored row at
offset plus that position, the result is drawn from the stored rows, and
an offset at or beyond the row count yields the empty sequence rather
than an error; for a negative limit — also admitted by the validation,
which only bounds limit above — the engine treats the LIMIT as unbounded
and all stored rows from offset on are returned; on an empty store the
default query offset 0, limit 100 returns the empty sequence. -/
theorem read_tasks_spec (s : Store) (offset limit : Int) (hoff : 0 ≤ offset)
    (hlim : limit ≤ 100) :
    (0 ≤ limit →
      ((read_tasks offset limit s).length : Int) ≤ limit ∧
      (read_tasks offset limit s).length ≤ 100 ∧
      (∀ i : Nat, (i : Int) < limit →
        (read_tasks offset limit s)[i]? = s.rows[offset.toNat + i]?) ∧
      (read_tasks offset limit s).Sublist s.rows ∧
      ((s.rows.length : Int) ≤ offset → read_tasks offset limit s = [])) ∧
    (limit < 0 → read_tasks offset limit s = s.rows.drop offset.toNat) ∧
    (s.rows = [] → read_tasks 0 100 s = []) := by
  refine ⟨?_, ?_, ?_⟩
  · intro hl0
    have heq : read_tasks offset limit s = (s.rows.drop offset.toNat).take limit.toNat := by
      simp only [read_tasks]
      rw [if_neg (by omega)]
    have hlen : (read_tasks offset limit s).length ≤ limit.toNat := by
      rw [heq, List.length_take]
      exact inf_le_left
    refine ⟨by omega, by omega, ?_, ?_, ?_⟩
    · intro i hi
      rw [heq, List.getElem?_take, if_pos (by omega), List.getElem?_drop]
    · rw [heq]
      exact (List.take_sublist _ _).trans (List.drop_sublist _ _)
    · intro h
      rw [heq, List.drop_eq_nil_of_le (by omega)]
      simp
  · intro hneg
    simp only [read_tasks]
    rw [if_pos hneg]
  · intro h
    simp [read_tasks, h]

/-- Witness for C5 as amended: the default query on the empty store
returns the empty sequence. -/
theorem read_tasks_spec_witness :
    read_tasks 0 100 ⟨[], 1⟩ = [] :=
  (read_tasks_spec ⟨[], 1⟩ 0 100 (by decide) (by decide)).2.2 rfl

/-- C6 counterexample: a creation request whose title is explicitly the
empty string passes the framework validation (the declared model imposes
no length constraint), a row is constructed and persisted, and the
handler returns it: empty-title requests are not rejected. -/
theorem create_accepts_empty_title :
    (create_endpoint ⟨some "", none, none⟩ ⟨[], 1⟩).1
      = .ok ⟨some 1, some "", none, some false⟩ ∧
    (create_endpoint ⟨some "", none, none⟩ ⟨[], 1⟩).2.rows
      = [⟨some 1, some "", none, some false⟩] := by
  exact ⟨by decide, by decide⟩

/-- C6 as amended: the framework validation requires title to be present;
a request with title absent is rejected as a ValidationError before any
row is constructed or persisted, while any present title, the empty
string included, is accepted and the row is created. -/
theorem create_validation (raw : RawCreate) (s : Store) :
    (raw.title = none →
      create_endpoint raw s = (.error { loc := "title", msg := "Field required" }, s)) ∧
    (∀ t, raw.title = some t →
      create_endpoint raw s
        = (.ok (create_task ⟨t, raw.description, raw.is_completed.getD false⟩ s).1,
           (create_task ⟨t, raw.description, raw.is_completed.getD false⟩ s).2)) := by
  constructor
  · intro h
    simp [create_endpoint, validateCreate, h]
  · intro t h
    simp [create_endpoint, validateCreate, h]

/-- Witness for C6: a request with no title is rejected and the empty
store stays empty; one with a title creates the row. -/
theorem create_validation_witness :
    create_endpoint ⟨none, some "d", some true⟩ ⟨[], 1⟩
      = (.error { loc := "title", msg := "Field required" }, ⟨[], 1⟩) ∧
    create_endpoint ⟨some "t", none, none⟩ ⟨[], 1⟩
      = (.ok (create_task ⟨"t", none, false⟩ ⟨[], 1⟩).1,
         (create_task ⟨"t", none, false⟩ ⟨[], 1⟩).2) :=
  ⟨(create_validation ⟨none, some "d", some true⟩ ⟨[], 1⟩).1 rfl,
   (create_validation ⟨some "t", none, none⟩ ⟨[], 1⟩).2 "t" rfl⟩

/-- C8: on a well-formed store every stored id is assigned (never null)
and distinct from the next id to be assigned; create assigns exactly the
fresh id and preserves well-formedness (so ids stay pairwise unique);
update leaves the id of every stored row unchanged (the patch shape
carries no id) and preserves well-formedness; delete preserves
well-formedness. -/
theorem id_invariants (s : Store) (input : TaskCreate) (tid : Nat) (u : TaskUpdate)
    (hWF : s.WF) :
    (∀ r ∈ s.rows, r.id ≠ none) ∧
    (∀ r ∈ s.rows, r.id ≠ some s.nextId) ∧
    (create_task input s).1.id = some s.nextId ∧
    Store.WF (create_task input s).2 ∧
    (update_task tid u s).2.rows.map Task.id = s.rows.map Task.id ∧
    Store.WF (update_task tid u s).2 ∧
    Store.WF (delete_task tid s).2 := by
  have hids : ∀ r ∈ s.rows, ∃ i, r.id = some i ∧ i < s.nextId :=
    fun r hr => idBelow_elim (hWF.1 r hr)
  have h1 : ∀ r ∈ s.rows, r.id ≠ none := by
    intro r hr
    obtain ⟨i, hid, _⟩ := hids r hr
    simp [hid]
  have h2 : ∀ r ∈ s.rows, r.id ≠ some s.nextId := by
    intro r hr
    obtain ⟨i, hid, hlt⟩ := hids r hr
    simp [hid]
    omega
  have hcreate : Store.WF (create_task input s).2 := by
    constructor
    · intro x hx
      simp only [create_task, List.mem_append, List.mem_singleton] at hx
      simp only [create_task]
      rcases hx with hx | hx
      · exact idBelow_mono (Nat.le_succ _) (hWF.1 x hx)
      · subst hx
        simp [Task.idBelow]
    · rw [create_task]
      simp only [List.map_append, List.map_cons, List.map_nil]
      rw [List.nodup_append]
      refine ⟨hWF.2, by simp, ?_⟩
      rw [List.disjoint_singleton]
      intro hmem
      obtain ⟨x, hx, hxid⟩ := List.mem_map.mp hmem
      exact h2 x hx hxid
  have hupdate_ids : (update_task tid u s).2.rows.map Task.id = s.rows.map Task.id := by
    cases hf : findTask s tid with
    | none => simp [update_task, hf]
    | some r =>
      obtain ⟨hrmem, hrid⟩ := findTask_some hf
      simp only [update_task, hf]
      rw [List.map_map]
      apply List.map_congr_left
      intro a ha
      by_cases hc : a.id = some tid
      · simp [Function.comp, hc, sqlmodel_update, hrid]
      · simp [Function.comp, hc]
  have hupdateWF : Store.WF (update_task tid u s).2 := by
    cases hf : findTask s tid with
    | none =>
      have : (update_task tid u s).2 = s := by simp [update_task, hf]
      rw [this]
      exact hWF
    | some r =>
      obtain ⟨hrmem, hrid⟩ := findTask_some hf
      constructor
      · intro x hx
        have hrows : (update_task tid u s).2.rows
            = s.rows.map (fun a => if a.id == some tid then sqlmodel_update r u else a) := by
          simp [update_task, hf]
        have hnext : (update_task tid u s).2.nextId = s.nextId := by
          simp [update_task, hf]
        rw [hrows] at hx
        rw [hnext]
        obtain ⟨a, ha, rfl⟩ := List.mem_map.mp hx
        by_cases hc : a.id = some tid
        · rw [if_pos (by simp [hc])]
          rw [idBelow_congr (sqlmodel_update_id r u)]
          exact hWF.1 r hrmem
        · rw [if_neg (by simp [hc])]
          exact hWF.1 a ha
      · rw [hupdate_ids]
        exact hWF.2
  have hdeleteWF : Store.WF (delete_task tid s).2 := by
    cases hf : findTask s tid with
    | none =>
      have : (delete_task tid s).2 = s := by simp [delete_task, hf]
      rw [this]
      exact hWF
    | some r =>
      have hrows : (delete_task tid s).2.rows
          = s.rows.filter (fun x => !(x.id == some tid)) := by
        simp [delete_task, hf]
      have hnext : (delete_task tid s).2.nextId = s.nextId := by
        simp [delete_task, hf]
      constructor
      · intro x hx
        rw [hrows] at hx
        rw [hnext]
        exact hWF.1 x (List.mem_filter.mp hx).1
      · rw [hrows]
        exact ((List.filter_sublist _).map Task.id).nodup hWF.2
  exact ⟨h1, h2, rfl, hcreate, hupdate_ids, hupdateWF, hdeleteWF⟩

/-- Witness for C8 on a concrete well-formed store: create keeps the
store well-formed and assigns the fresh id, and an update touching
is_completed leaves the stored ids as they were. -/
theorem id_invariants_witness :
    (create_task ⟨"b", none, false⟩ ⟨[⟨some 1, some "a", none, some false⟩], 2⟩).1.id
      = some 2 ∧
    Store.WF (create_task ⟨"b", none, false⟩ ⟨[⟨some 1, some "a", none, some false⟩], 2⟩).2 ∧
    (update_task 1 ⟨none, none, some (some true)⟩
        ⟨[⟨some 1, some "a", none, some false⟩], 2⟩).2.rows.map Task.id
      = [some 1] ∧
    Store.WF (delete_task 1 ⟨[⟨some 1, some "a", none, some false⟩], 2⟩).2 := by
  have h := id_invariants ⟨[⟨some 1, some "a", none, some false⟩], 2⟩ ⟨"b", none, false⟩ 1
    ⟨none, none, some (some true)⟩ (by decide)
  exact ⟨h.2.2.1, h.2.2.2.1, h.2.2.2.2.1, h.2.2.2.2.2.2⟩

/-- C2 counterexample: at the spec's own example input the classifier
does not return the label Critical followed by the red-circle emoji; the
source literal is the double-encoded character sequence U+00F0 U+0178
U+201D U+00B4, a different string. -/
theorem classifier_label_counterexample :
    simple_ai_model "This is urgent, system failure" = "Critical ðŸ”´" ∧
    "Critical ðŸ”´" ≠ "Critical 🔴" :=
  ⟨by decide, by decide⟩

/-- C2 as amended: the classifier is a pure total function agreeing with
case-insensitive substring matching against the two fixed keyword sets in
priority order (Critical keywords first, then Growth, else Neutral), and
the returned labels are exactly the source file's literals, in which each
intended emoji appears as a double-encoded (mojibake) character sequence:
Critical then U+00F0 U+0178 U+201D U+00B4, Growth then U+00F0 U+0178
U+0178 U+00A2, Neutral then U+00E2 U+0161 U+00AA; the analyze endpoint
echoes the input next to the predicted label. -/
theorem classifier_matches_spec :
    (∀ s, simple_ai_model s = classifySpec s) ∧
    simple_ai_model "This is urgent, system failure" = "Critical ðŸ”´" ∧
    simple_ai_model "I want to learn Go" = "Growth ðŸŸ¢" ∧
    simple_ai_model "" = "Neutral âšª" ∧
    (∀ d, analyze_task_sentiment d
      = { description := d, predicted_sentiment := simple_ai_model d }) := by
  refine ⟨fun s => ?_, by decide, by decide, by decide, fun d => rfl⟩
  simp only [simple_ai_model, classifySpec, criticalKeywords, growthKeywords,
    List.any_cons, List.any_nil, Bool.or_false, Bool.or_assoc]

end TaskAPI
